import Mathlib

/-!
Shallow embedding of the FleetX vehicle-location tracker
(`fleetx_tracker.py`) for checking its natural-language specification.

Modelling conventions:
* Python dict values that appear in a snapshot row are modelled by `Value`
  (`vnone` for `None` / a missing key, `num` for `int`/`float` numbers,
  `str` for strings).  Python numerics are modelled as exact rationals `ℚ`;
  every numeric literal of the source (`0.0001`, `12 * 3600`) is far from
  any value the claims exercise, so the rational model decides each claim
  the way the floating-point program does.
* A snapshot (`data` dict / one database row) is a total map from the fixed
  column set `FieldName` to `Value`; `data.get(field)` with a missing key
  returns `None`, i.e. `Value.vnone`.
* The history table is a list of snapshots in insertion order; `ORDER BY
  fetch_timestamp DESC LIMIT 1` over rows of one vehicle is the last
  element of the per-vehicle sublist (rows are inserted with monotone
  `fetch_timestamp`).
* Fallible calls (`requests.get`, SQL reads, `login_with_selenium`) become
  explicit result values; the recursive `fetch_vehicle_location` gets a
  fuel parameter, with `FetchResult.divergent` marking that the recursion
  exceeds the given depth.
-/

namespace FleetX

/-- A Python value stored in a snapshot field: `None`, a number
(`int`/`float`, modelled as `ℚ`), or a string. -/
inductive Value where
  | vnone : Value
  | num (q : ℚ) : Value
  | str (s : String) : Value
  deriving DecidableEq, Repr

/-- Truth of `isinstance(v, (int, float))` for a `Value`. -/
def Value.isNum : Value → Bool
  | .num _ => true
  | _ => false

/-- The fixed column set of `vehicle_location_history` in the keys used by
`_get_last_record`'s returned dict (and by `data.get` in
`store_location_data`). -/
inductive FieldName where
  | deviceId | accountId | vehicleId | vehicleNumber | vehicleName
  | vehicleMake | vehicleModel | driverName | vehicleYear | groupId
  | driverId | fuelType | type | latitude | longitude
  | currentFuelConsumption | totalFuelConsumption
  | currentDEFConsumption | totalDEFConsumption
  | tripEVBatteryConsumed | tripEVBatteryVoltageConsumed
  | currentOdometer | totalOdometer | speed | timeStamp | createDate
  | rpm | status | mileage | mileageDEF | mileageEV | mileageEVVoltage
  | lastAccOn | gear | rpmSlot | durationEngineOn
  | serverTime | course | address | otherAttributes
  deriving DecidableEq, Repr

/-- A snapshot / history row: one `Value` per column.  `data.get f` is
`data f` (absent keys are `Value.vnone`). -/
def Snapshot := FieldName → Value

/-- The `compare_fields` list of `_has_data_changed`. -/
def compare_fields : List FieldName :=
  [ .latitude, .longitude, .speed, .status, .rpm,
    .currentFuelConsumption, .totalFuelConsumption,
    .currentOdometer, .totalOdometer, .driverId,
    .course, .address ]

/-- The float tolerance `0.0001` of `_has_data_changed`. -/
def tol : ℚ := 1 / 10000

/-- One iteration of the `for field in compare_fields` loop body of
`_has_data_changed`: when both values are numeric the comparison is
`abs(new_val - old_val) > 0.0001`, otherwise it is `new_val != old_val`. -/
def fieldDiffers (newVal oldVal : Value) : Bool :=
  match newVal, oldVal with
  | .num a, .num b => decide (|a - b| > tol)
  | a, b => decide (¬ a = b)

/-- `FleetXTracker._has_data_changed(new_data, old_data)`: `True` when
`old_data is None`, otherwise `True` iff some compared field differs. -/
def has_data_changed (new_data : Snapshot) (old_data : Option Snapshot) : Bool :=
  match old_data with
  | none => true
  | some od => compare_fields.any fun f => fieldDiffers (new_data f) (od f)

/-- The rows of the history table belonging to one vehicle id (the SQL
`WHERE vehicle_id = ?` of `_get_last_record`). -/
def perEntity (v : Value) (db : List Snapshot) : List Snapshot :=
  db.filter fun r => decide (r FieldName.vehicleId = v)

/-- `FleetXTracker._get_last_record(vehicle_id)` on a successful query:
the vehicle's most recent row (`ORDER BY fetch_timestamp DESC LIMIT 1`),
or `None` when the vehicle has no rows. -/
def get_last_record (db : List Snapshot) (vid : Value) : Option Snapshot :=
  (perEntity vid db).getLast?

/-- A storage-layer exception (anything the bare `except` clauses of
`_get_last_record` / `store_location_data` would catch). -/
inductive StorageErr where
  | exn (msg : String)
  deriving DecidableEq, Repr

/-- The exception handler of `_get_last_record`: a failed read is logged
and converted to `None`, exactly like a vehicle with no rows. -/
def get_last_record_guarded (queryResult : Except StorageErr (Option Snapshot)) :
    Option Snapshot :=
  match queryResult with
  | .ok r => r
  | .error _ => none

/-- `FleetXTracker.store_location_data(data)` with the outcome of the
last-record read made explicit: append the row iff `_has_data_changed`
holds against the (guarded) read result. -/
def store_location_data_from_read (db : List Snapshot)
    (queryResult : Except StorageErr (Option Snapshot)) (data : Snapshot) :
    List Snapshot :=
  if has_data_changed data (get_last_record_guarded queryResult) then
    db ++ [data]
  else
    db

/-- `FleetXTracker.store_location_data(data)` when the last-record read
succeeds: look up the vehicle's last row and append iff the data changed. -/
def store_location_data (db : List Snapshot) (data : Snapshot) : List Snapshot :=
  store_location_data_from_read db
    (.ok (get_last_record db (data FieldName.vehicleId))) data

/-- No two consecutive rows of a (per-vehicle) history log are equal under
the detector: each row registers as changed against its predecessor. -/
def noConsecutiveDup : List Snapshot → Bool
  | a :: b :: rest => has_data_changed b (some a) && noConsecutiveDup (b :: rest)
  | _ => true

/-- Statement helper: the two values agree up to the detector's rule —
numeric values within the tolerance, any other pair exactly equal. -/
def fieldWithin (a b : Value) : Bool :=
  match a, b with
  | .num x, .num y => decide (|x - y| ≤ tol)
  | a, b => decide (a = b)

/-- Statement helper: both values numeric and differing beyond the
tolerance. -/
def numBeyond (a b : Value) : Bool :=
  match a, b with
  | .num x, .num y => decide (|x - y| > tol)
  | _, _ => false

/-- A concrete snapshot whose only varying field is `speed`. -/
def speedSnap (q : ℚ) : Snapshot := fun f =>
  match f with
  | .speed => .num q
  | .latitude => .num 1
  | .longitude => .num 2
  | .status => .str "RUNNING"
  | _ => .vnone

/-- The snapshot `speedSnap` with the `speed` key absent (`None`). -/
def speedAbsentSnap : Snapshot := fun f =>
  match f with
  | .speed => .vnone
  | .latitude => .num 1
  | .longitude => .num 2
  | .status => .str "RUNNING"
  | _ => .vnone

/-- The contents of `fleetx_token.json`: the `access_token` value and the
`saved_at` unix-epoch time (`saved_at` missing defaults to `0`). -/
structure TokenData where
  access_token : Option String
  saved_at : ℚ

/-- The validity window of a saved token: `12 * 3600` seconds. -/
def validityWindow : ℚ := 12 * 3600

/-- `FleetXTracker._load_saved_token` as a function of the (parsed) token
file and the current time: `fileContents = none` models an absent or
unreadable/unparseable file (the `except` clause), and a token older than
the validity window is discarded (`self.access_token = None`). -/
def load_saved_token (fileContents : Option TokenData) (now : ℚ) : Option String :=
  match fileContents with
  | none => none
  | some td => if now - td.saved_at < validityWindow then td.access_token else none

/-- One HTTP exchange of `fetch_vehicle_location`, classified the way the
code branches on it: `ok body` is status `200` (`body = none` when
`response.json()` fails to decode), `authReject` is `401`/`403`,
`otherStatus` any other status code, `netExn` a raised request exception
(timeout, connection error). -/
inductive RemoteResp where
  | ok (body : Option Snapshot)
  | authReject
  | otherStatus
  | netExn

/-- Outcome of a `fetch_vehicle_location` call: the returned value together
with the token state it leaves behind, or `divergent` when the
retry-after-relogin recursion exceeds the given fuel. -/
inductive FetchResult where
  | returns (data : Option Snapshot) (tok : Option String)
  | divergent

/-- `FleetXTracker.fetch_vehicle_location` with its environment explicit:
`remote n` is the response to the n-th HTTP request and `login n` the
result of the n-th `login_with_selenium` call (`some newTok` on success).
On `200` the decoded body (or `None` on a decode exception) is returned;
on `401`/`403` the token is cleared and, when re-login succeeds, the
function recursively calls itself with no depth bound — the fuel parameter
makes that recursion well-founded, `divergent` marking that it exceeded
the given depth; on any other status or a raised exception it returns
`None`. -/
def fetch_vehicle_location :
    Nat → (Nat → RemoteResp) → (Nat → Option String) → Nat → Option String →
    FetchResult
  | 0, _, _, _, _ => .divergent
  | fuel + 1, remote, login, attempt, tok =>
    match remote attempt with
    | .ok body => .returns body tok
    | .otherStatus => .returns none tok
    | .netExn => .returns none tok
    | .authReject =>
      match login attempt with
      | some newTok => fetch_vehicle_location fuel remote login (attempt + 1) (some newTok)
      | none => .returns none none

/-- The `for vehicle_id in vehicle_ids` loop body of `run_periodic_fetch`:
`fetchRes vid` is what `fetch_vehicle_location(vid)` returned for this
cycle; a truthy result is stored, otherwise the entity is skipped with a
warning, and the loop always proceeds to the next entity. -/
def run_cycle (fetchRes : Nat → Option Snapshot) :
    List Snapshot → List Nat → List Snapshot
  | db, [] => db
  | db, vid :: rest =>
    match fetchRes vid with
    | some data => run_cycle fetchRes (store_location_data db data) rest
    | none => run_cycle fetchRes db rest

/-- How a `run_periodic_fetch` invocation ends: the early `return` after a
failed initial login, or the external cancellation signal
(`KeyboardInterrupt`) observed at an inter-cycle pause. -/
inductive SchedulerExit where
  | initialLoginFailed
  | cancelled
  deriving DecidableEq, Repr

/-- `FleetXTracker.run_periodic_fetch`: `tok` is the saved token at entry,
`loginOk` whether the initial `login_with_selenium` would succeed,
`fetchRes c vid` the fetch result for vehicle `vid` in cycle `c`, and
`cancelAfterCycles` the cycle at which the external cancellation signal
arrives.  With no saved token and a failed initial login the function
returns at once; otherwise every error inside a cycle is handled by
`fetch_vehicle_location` / `store_location_data` themselves (both catch
all exceptions), so the loop runs until cancellation. -/
def run_periodic_fetch (tok : Option String) (loginOk : Bool)
    (fetchRes : Nat → Nat → Option Snapshot) (vehicle_ids : List Nat)
    (cancelAfterCycles : Nat) : SchedulerExit × List Snapshot :=
  match tok, loginOk with
  | none, false => (.initialLoginFailed, [])
  | _, _ =>
    (.cancelled,
      (List.range cancelAfterCycles).foldl
        (fun db c => run_cycle (fetchRes c) db vehicle_ids) [])

/-- A concrete per-cycle fetch script: entities 1 and 3 succeed, entity 2
fails (e.g. its response body does not decode). -/
def fetchScript : Nat → Option Snapshot := fun n =>
  if n = 1 then some (speedSnap 10)
  else if n = 3 then some (speedSnap 25)
  else none

/-- The per-entity no-consecutive-duplicates invariant of the history
table, for every vehicle id at once. -/
def InvDB (db : List Snapshot) : Prop :=
  ∀ v, noConsecutiveDup (perEntity v db) = true

/-! ### General lemmas about the change detector -/

theorem fieldDiffers_self (v : Value) : fieldDiffers v v = false := by
  cases v with
  | num a => simp [fieldDiffers, tol]
  | vnone => simp [fieldDiffers]
  | str s => simp [fieldDiffers]

theorem has_data_changed_self (s : Snapshot) :
    has_data_changed s (some s) = false := by
  simp [has_data_changed, List.any_eq_false, fieldDiffers_self]

end FleetX

namespace FleetX

/-! ### Lemmas about the history store -/

theorem perEntity_append (v : Value) (db : List Snapshot) (d : Snapshot) :
    perEntity v (db ++ [d]) =
      perEntity v db ++ if d FieldName.vehicleId = v then [d] else [] := by
  simp only [perEntity, List.filter_append]
  by_cases h : d FieldName.vehicleId = v <;> simp [h]

theorem noConsecutiveDup_append (l : List Snapshot) (x : Snapshot)
    (hl : noConsecutiveDup l = true)
    (hx : has_data_changed x l.getLast? = true) :
    noConsecutiveDup (l ++ [x]) = true := by
  induction l with
  | nil => rfl
  | cons a t ih =>
    cases t with
    | nil =>
      simp only [List.cons_append, List.nil_append, noConsecutiveDup,
        Bool.and_eq_true]
      exact ⟨by simpa using hx, trivial⟩
    | cons b t' =>
      simp only [noConsecutiveDup, Bool.and_eq_true] at hl
      simp only [List.cons_append, noConsecutiveDup, Bool.and_eq_true]
      refine ⟨hl.1, ?_⟩
      have := ih hl.2 (by simpa [List.getLast?_cons_cons] using hx)
      simpa [List.cons_append] using this

theorem invDB_nil : InvDB [] := fun _ => rfl

theorem store_preserves_invDB (db : List Snapshot) (d : Snapshot)
    (h : InvDB db) : InvDB (store_location_data db d) := by
  by_cases hc : has_data_changed d
      (get_last_record_guarded (.ok (get_last_record db (d FieldName.vehicleId)))) = true
  · have hstep : store_location_data db d = db ++ [d] := by
      simp [store_location_data, store_location_data_from_read, hc]
    rw [hstep]
    intro v
    rw [perEntity_append]
    by_cases hv : d FieldName.vehicleId = v
    · subst hv
      rw [if_pos rfl]
      apply noConsecutiveDup_append _ _ (h _)
      simpa [get_last_record_guarded, get_last_record] using hc
    · rw [if_neg hv, List.append_nil]
      exact h v
  · have hstep : store_location_data db d = db := by
      simp [store_location_data, store_location_data_from_read, hc]
    rw [hstep]
    exact h

theorem foldl_store_invDB (datas : List Snapshot) (db : List Snapshot)
    (h : InvDB db) : InvDB (datas.foldl store_location_data db) := by
  induction datas generalizing db with
  | nil => exact h
  | cons d t ih => exact ih _ (store_preserves_invDB _ _ h)

theorem store_after_append_eq (db : List Snapshot) (d1 d2 : Snapshot)
    (hvid : d2 FieldName.vehicleId = d1 FieldName.vehicleId)
    (hch : has_data_changed d2 (some d1) = false) :
    store_location_data (db ++ [d1]) d2 = db ++ [d1] := by
  have hl : get_last_record (db ++ [d1]) (d2 FieldName.vehicleId) = some d1 := by
    rw [hvid]
    unfold get_last_record
    rw [perEntity_append, if_pos rfl, List.getLast?_concat]
  simp [store_location_data, store_location_data_from_read,
    get_last_record_guarded, hl, hch]

/-! ### Claim theorems about the change detector -/

/-- C3.  Two snapshots whose compared fields all agree up to the detector's
rule (numeric fields within the `0.0001` tolerance, other fields equal) are
reported unchanged; a compared numeric field differing by more than the
tolerance forces a change; concretely, a `speed` delta of `0.00005` is
considered equal and a delta of `0.0002` is considered different. -/
theorem change_detection_tolerance :
    (∀ nd od : Snapshot,
        (compare_fields.all fun f => fieldWithin (nd f) (od f)) = true →
        has_data_changed nd (some od) = false) ∧
    (∀ (nd od : Snapshot) (f : FieldName), f ∈ compare_fields →
        numBeyond (nd f) (od f) = true →
        has_data_changed nd (some od) = true) ∧
    has_data_changed (speedSnap (1/20000)) (some (speedSnap 0)) = false ∧
    has_data_changed (speedSnap (1/5000)) (some (speedSnap 0)) = true := by
  refine ⟨?_, ?_, ?_, ?_⟩
  · intro nd od h
    rw [List.all_eq_true] at h
    simp only [has_data_changed, List.any_eq_false]
    intro f hf
    have hw := h f hf
    cases hn : nd f <;> cases ho : od f <;>
      simp only [hn, ho, fieldWithin, decide_eq_true_eq] at hw <;>
      simp [fieldDiffers, hw, not_lt]
  · intro nd od f hf hb
    simp only [has_data_changed, List.any_eq_true]
    refine ⟨f, hf, ?_⟩
    cases hn : nd f <;> cases ho : od f <;>
      simp only [hn, ho, numBeyond, decide_eq_true_eq] at hb <;>
      first
        | (exact absurd hb Bool.false_ne_true)
        | simp [fieldDiffers, hb]
  · simp [has_data_changed, compare_fields, speedSnap, fieldDiffers, tol]
    rw [abs_of_nonneg] <;> norm_num
  · simp [has_data_changed, compare_fields, speedSnap, fieldDiffers, tol]
    rw [abs_of_nonneg] <;> norm_num

/-- Witness for C3: the two tolerance-part hypotheses discharged at the
concrete `speed`-delta snapshots. -/
theorem change_detection_tolerance_witness :
    (compare_fields.all fun f =>
        fieldWithin (speedSnap (1/20000) f) (speedSnap 0 f)) = true ∧
    has_data_changed (speedSnap (1/20000)) (some (speedSnap 0)) = false := by
  have hall : (compare_fields.all fun f =>
      fieldWithin (speedSnap (1/20000) f) (speedSnap 0 f)) = true := by
    simp [compare_fields, fieldWithin, speedSnap, tol]
    rw [abs_of_nonneg] <;> norm_num
  exact ⟨hall, change_detection_tolerance.1 _ _ hall⟩

/-- C4.  `_has_data_changed` returns true when the previous record is
absent, so for an entity with no prior history row the first successful
fetch is always appended by `store_location_data`. -/
theorem first_observation :
    (∀ nd : Snapshot, has_data_changed nd none = true) ∧
    (∀ (db : List Snapshot) (data : Snapshot),
        get_last_record db (data FieldName.vehicleId) = none →
        store_location_data db data = db ++ [data]) := by
  refine ⟨fun _ => rfl, ?_⟩
  intro db data h
  simp [store_location_data, store_location_data_from_read,
    get_last_record_guarded, h, has_data_changed]

/-- Witness for C4: on an empty history the last-record read is `none` and
the first snapshot is appended. -/
theorem first_observation_witness :
    get_last_record [] (speedSnap 0 FieldName.vehicleId) = none ∧
    store_location_data [] (speedSnap 0) = [] ++ [speedSnap 0] :=
  ⟨rfl, first_observation.2 [] (speedSnap 0) rfl⟩

/-- C10.  The tolerance branch of `_has_data_changed` applies only when
both values are numeric (`isinstance(v, (int, float))`); otherwise exact
inequality decides, so a compared field whose numeric-ness differs between
the two snapshots (e.g. a number on one side and `None` on the other)
always registers as a change. -/
theorem non_numeric_exact_equality :
    (∀ a b : Value, (a.isNum && b.isNum) = false →
        fieldDiffers a b = decide (¬ a = b)) ∧
    (∀ (nd od : Snapshot) (f : FieldName), f ∈ compare_fields →
        (nd f).isNum ≠ (od f).isNum →
        has_data_changed nd (some od) = true) := by
  constructor
  · intro a b h
    cases a <;> cases b <;> first
      | rfl
      | (exfalso; simp [Value.isNum] at h)
  · intro nd od f hf hne
    simp only [has_data_changed, List.any_eq_true]
    refine ⟨f, hf, ?_⟩
    cases hn : nd f <;> cases ho : od f <;>
      simp only [hn, ho, Value.isNum] at hne <;>
      first
        | (exact absurd rfl hne)
        | simp [fieldDiffers]

/-- Witness for C10: `speed` transitioning from the number `0` to an
absent value is detected as a change. -/
theorem non_numeric_exact_equality_witness :
    FieldName.speed ∈ compare_fields ∧
    has_data_changed (speedSnap 0) (some speedAbsentSnap) = true := by
  have hmem : FieldName.speed ∈ compare_fields := by decide
  exact ⟨hmem, non_numeric_exact_equality.2 _ _ _ hmem
    (by simp [speedSnap, speedAbsentSnap, Value.isNum])⟩

/-- C2.  Starting from an empty history, any sequence of
`store_location_data` calls leaves, for every vehicle id, no two
consecutive rows that are equal under `_has_data_changed`; storing the
identical snapshot again is a no-op; and a snapshot within tolerance of
the entity's freshly appended latest row is not appended. -/
theorem no_consecutive_duplicates :
    (∀ (datas : List Snapshot) (v : Value),
        noConsecutiveDup (perEntity v (datas.foldl store_location_data [])) = true) ∧
    (∀ (db : List Snapshot) (data : Snapshot),
        store_location_data (store_location_data db data) data =
          store_location_data db data) ∧
    (∀ (db : List Snapshot) (d1 d2 : Snapshot),
        d2 FieldName.vehicleId = d1 FieldName.vehicleId →
        has_data_changed d2 (some d1) = false →
        store_location_data (db ++ [d1]) d2 = db ++ [d1]) := by
  refine ⟨fun datas v => foldl_store_invDB datas [] invDB_nil v, ?_, ?_⟩
  · intro db data
    by_cases hc : has_data_changed data
        (get_last_record_guarded (.ok (get_last_record db (data FieldName.vehicleId)))) = true
    · have h1 : store_location_data db data = db ++ [data] := by
        simp [store_location_data, store_location_data_from_read, hc]
      rw [h1]
      rw [store_after_append_eq db data data rfl (has_data_changed_self data)]
    · have h1 : store_location_data db data = db := by
        simp [store_location_data, store_location_data_from_read, hc]
      rw [h1]
      exact h1
  · exact store_after_append_eq

/-- Witness for C2: a `speed` change of `0.00005` against the freshly
stored row is within tolerance and does not produce a second row. -/
theorem no_consecutive_duplicates_witness :
    speedSnap (1/20000) FieldName.vehicleId = speedSnap 0 FieldName.vehicleId ∧
    has_data_changed (speedSnap (1/20000)) (some (speedSnap 0)) = false ∧
    store_location_data ([] ++ [speedSnap 0]) (speedSnap (1/20000)) =
      [] ++ [speedSnap 0] := by
  have h2 : has_data_changed (speedSnap (1/20000)) (some (speedSnap 0)) = false := by
    simp [has_data_changed, compare_fields, speedSnap, fieldDiffers, tol]
    rw [abs_of_nonneg] <;> norm_num
  exact ⟨rfl, h2,
    no_consecutive_duplicates.2.2 [] (speedSnap 0) (speedSnap (1/20000)) rfl h2⟩

/-- C9.  A failed last-record read (`_get_last_record`'s `except` clause)
behaves exactly like an absent record: the new snapshot is unconditionally
appended, identically to a first observation; the ordinary store is the
read-parametrised store at a successful read. -/
theorem read_error_is_first_observation :
    (∀ (db : List Snapshot) (e : StorageErr) (data : Snapshot),
        store_location_data_from_read db (.error e) data = db ++ [data]) ∧
    (∀ (db : List Snapshot) (e : StorageErr) (data : Snapshot),
        store_location_data_from_read db (.error e) data =
          store_location_data_from_read db (.ok none) data) ∧
    (∀ (db : List Snapshot) (data : Snapshot),
        store_location_data db data =
          store_location_data_from_read db
            (.ok (get_last_record db (data FieldName.vehicleId))) data) := by
  refine ⟨?_, ?_, fun _ _ => rfl⟩ <;>
    intro db e data <;>
    simp [store_location_data_from_read, get_last_record_guarded, has_data_changed]

/-- C5.  A saved credential is accepted exactly when
`now - saved_at < 12 * 3600`; it is still accepted `ε` before the window
closes, rejected (discarded, i.e. treated as no credential) `ε` after, and
an absent or unparseable token file yields no credential. -/
theorem credential_validity_window :
    ∀ (tokStr : String) (T now ε : ℚ), 0 < ε →
      (load_saved_token (some ⟨some tokStr, T⟩) now = some tokStr ↔
        now - T < 12 * 3600) ∧
      load_saved_token (some ⟨some tokStr, T⟩) (T + 12 * 3600 - ε) = some tokStr ∧
      load_saved_token (some ⟨some tokStr, T⟩) (T + 12 * 3600 + ε) = none ∧
      load_saved_token none now = none := by
  intro tokStr T now ε hε
  refine ⟨?_, ?_, ?_, rfl⟩
  · by_cases hlt : now - T < 12 * 3600 <;>
      simp [load_saved_token, validityWindow, hlt]
  · have h : (T + 12 * 3600 - ε) - T < 12 * 3600 := by linarith
    simp [load_saved_token, validityWindow, h]
  · have h : ¬ (T + 12 * 3600 + ε) - T < 12 * 3600 := by
      push_neg
      linarith
    simp [load_saved_token, validityWindow, h]

/-- Witness for C5: one second before the window closes a token saved at
time `0` is still loaded. -/
theorem credential_validity_window_witness :
    (0:ℚ) < 1 ∧
    load_saved_token (some ⟨some "tok", 0⟩) (0 + 12 * 3600 - 1) = some "tok" :=
  ⟨by norm_num,
    (credential_validity_window "tok" 0 (0 + 12 * 3600 - 1) 1 (by norm_num)).2.1⟩

/-- C1 (code bug).  Against a remote that answers `401` on every request
while `login_with_selenium` always succeeds, `fetch_vehicle_location`'s
recursive retry-after-relogin never returns: it exceeds every finite
recursion depth, instead of performing exactly one reauth-and-retry and
abandoning the entity as the spec mandates. -/
theorem unbounded_reauth_recursion :
    ∀ (fuel attempt : Nat) (remote : Nat → RemoteResp)
      (login : Nat → Option String) (tok : Option String),
      (∀ n, remote n = RemoteResp.authReject) →
      (∀ n, (login n).isSome = true) →
      fetch_vehicle_location fuel remote login attempt tok =
        FetchResult.divergent := by
  intro fuel
  induction fuel with
  | zero => intro attempt remote login tok _ _; rfl
  | succ n ih =>
    intro attempt remote login tok hr hl
    simp only [fetch_vehicle_location, hr attempt]
    cases hlog : login attempt with
    | none =>
      have h := hl attempt
      rw [hlog] at h
      simp at h
    | some t => exact ih (attempt + 1) remote login (some t) hr hl

/-- Witness for C1: at depth 5 the always-401 remote with an
always-succeeding login already diverges. -/
theorem unbounded_reauth_recursion_witness :
    (∀ n : Nat, ((fun _ => some "t") n : Option String).isSome = true) ∧
    fetch_vehicle_location 5 (fun _ => RemoteResp.authReject)
        (fun _ => some "t") 0 none = FetchResult.divergent :=
  ⟨fun _ => rfl,
    unbounded_reauth_recursion 5 0 (fun _ => RemoteResp.authReject)
      (fun _ => some "t") none (fun _ => rfl) (fun _ => rfl)⟩

/-- C6 (code bug).  The fetch primitive reauthenticates and retries inside
itself — a `401` followed by a `200` yields the snapshot with a renewed
token, recovered without the caller deciding anything — and every failure
kind (other non-2xx status, undecodable body, auth failure with failed
re-login) collapses to the same unclassified `None` return value instead
of distinct `AuthError`/`NetworkError`/`ParseError` results. -/
theorem client_internal_retry_and_unclassified_errors :
    fetch_vehicle_location 2
        (fun n => if n = 0 then RemoteResp.authReject
                  else RemoteResp.ok (some (speedSnap 10)))
        (fun _ => some "t2") 0 (some "t1") =
      FetchResult.returns (some (speedSnap 10)) (some "t2") ∧
    fetch_vehicle_location 1 (fun _ => RemoteResp.otherStatus)
        (fun _ => none) 0 (some "t1") =
      FetchResult.returns none (some "t1") ∧
    fetch_vehicle_location 1 (fun _ => RemoteResp.ok none)
        (fun _ => none) 0 (some "t1") =
      FetchResult.returns none (some "t1") ∧
    fetch_vehicle_location 2 (fun _ => RemoteResp.authReject)
        (fun _ => none) 0 (some "t1") =
      FetchResult.returns none none :=
  ⟨rfl, rfl, rfl, rfl⟩

/-- C7.  Entities whose fetch returned nothing are no-ops of the cycle
loop — the cycle behaves as if run on the successful entities alone — and
with entities `[1, 2, 3]` where entity 2's fetch fails, entities 1 and 3
are fetched and stored normally. -/
theorem per_entity_isolation :
    (∀ (fetchRes : Nat → Option Snapshot) (db : List Snapshot) (es : List Nat),
        run_cycle fetchRes db es =
          run_cycle fetchRes db (es.filter fun e => (fetchRes e).isSome)) ∧
    (∀ (fetchRes : Nat → Option Snapshot) (db : List Snapshot) (d1 d3 : Snapshot),
        fetchRes 1 = some d1 → fetchRes 2 = none → fetchRes 3 = some d3 →
        run_cycle fetchRes db [1, 2, 3] =
          store_location_data (store_location_data db d1) d3) := by
  constructor
  · intro f db es
    induction es generalizing db with
    | nil => rfl
    | cons e t ih =>
      cases hf : f e with
      | none =>
        have hs : (f e).isSome = false := by simp [hf]
        simp only [run_cycle, hf, List.filter_cons, hs, Bool.false_eq_true,
          if_false]
        exact ih db
      | some d =>
        have hs : (f e).isSome = true := by simp [hf]
        simp only [run_cycle, hf, List.filter_cons, hs, if_true]
        exact ih (store_location_data db d)
  · intro f db d1 d3 h1 h2 h3
    simp [run_cycle, h1, h2, h3]

/-- Witness for C7: the concrete fetch script whose entity 2 fails. -/
theorem per_entity_isolation_witness :
    fetchScript 2 = none ∧
    run_cycle fetchScript [] [1, 2, 3] =
      store_location_data (store_location_data [] (speedSnap 10)) (speedSnap 25) :=
  ⟨rfl, per_entity_isolation.2 fetchScript [] (speedSnap 10) (speedSnap 25)
    rfl rfl rfl⟩

/-- C8 counterexample.  With no saved token and a failing initial login,
`run_periodic_fetch` returns immediately (`"Initial login failed.
Exiting."`) — a failed credential acquisition does end the scheduler, and
that exit is not the external cancellation signal. -/
theorem scheduler_exits_on_initial_acquisition_failure :
    run_periodic_fetch none false (fun _ _ => none) [1] 3 =
      (SchedulerExit.initialLoginFailed, []) ∧
    SchedulerExit.initialLoginFailed ≠ SchedulerExit.cancelled :=
  ⟨rfl, by decide⟩

/-- C8 amended.  Once past startup (a saved token exists or the initial
login succeeds), no per-cycle error ends the scheduler: for any fetch
outcomes, any entity list and any number of cycles, the loop runs until
the external cancellation signal, which is the only way it ends. -/
theorem scheduler_survives_cycle_errors :
    ∀ (tok : Option String) (loginOk : Bool)
      (fetchRes : Nat → Nat → Option Snapshot)
      (vehicle_ids : List Nat) (cancelAfterCycles : Nat),
      tok.isSome = true ∨ loginOk = true →
      (run_periodic_fetch tok loginOk fetchRes vehicle_ids cancelAfterCycles).1 =
        SchedulerExit.cancelled := by
  intro tok loginOk f es n h
  cases tok with
  | some t => rfl
  | none =>
    cases loginOk with
    | true => rfl
    | false => simp at h

/-- Witness for C8: a scheduler with a saved token and all fetches failing
still ends only by cancellation. -/
theorem scheduler_survives_cycle_errors_witness :
    ((some "t" : Option String).isSome = true ∨ false = true) ∧
    (run_periodic_fetch (some "t") false (fun _ _ => none) [1, 2] 2).1 =
      SchedulerExit.cancelled :=
  ⟨Or.inl rfl,
    scheduler_survives_cycle_errors (some "t") false (fun _ _ => none) [1, 2] 2
      (Or.inl rfl)⟩

end FleetX
